import Mathlib

/-!
Verification of the Spray Decision & Control subsystem of the
Intelligent Pesticide Sprinkler backend (`src/backend/app.py`,
`src/backend/model.py`, `src/backend/spray_logic.py`).

Python floats for moisture, infection level and duration are modelled
as rationals (`ℚ`); the comparisons in the source are exact order
comparisons, so this embedding preserves their outcomes on every value
the claims mention.  Timestamps (`datetime.now().isoformat()`) are
modelled as an abstract `Nat` supplied by the caller.
-/

/-- Safety interlock from the source: `40 <= soil_moisture <= 70`
(app.py lines 123 and 235, spray_logic.py line 78). -/
def moisture_safe (soil_moisture : ℚ) : Bool :=
  decide (40 ≤ soil_moisture ∧ soil_moisture ≤ 70)

/-- Duration banding from `calculate_spray_duration`
(spray_logic.py lines 38-52, duplicated in model.py lines 271-280). -/
def calculate_spray_duration (infection_level : ℚ) : ℕ :=
  if infection_level ≤ 0 then 0
  else if infection_level < 25 then 3
  else if infection_level < 50 then 5
  else if infection_level < 75 then 8
  else 10

/-- Result record of `calculate_spray_with_safety` (spray_logic.py);
the reason string is formatted text and carries no decision content,
so it is omitted. -/
structure SprayDecision where
  spray_allowed : Bool
  duration : ℕ
deriving DecidableEq

/-- `calculate_spray_with_safety` (spray_logic.py lines 55-101). -/
def calculate_spray_with_safety (infection_level soil_moisture : ℚ) : SprayDecision :=
  if ¬ (40 ≤ soil_moisture ∧ soil_moisture ≤ 70) then
    { spray_allowed := false, duration := 0 }
  else
    let duration := calculate_spray_duration infection_level
    if duration = 0 then
      { spray_allowed := false, duration := 0 }
    else
      { spray_allowed := true, duration := duration }

/-- Severity banding from `DiseaseSegmentationModel._get_severity`
(model.py lines 248-259). -/
def get_severity (infection_level : ℚ) : String :=
  if infection_level < 10 then "Low"
  else if infection_level < 30 then "Moderate"
  else if infection_level < 50 then "High"
  else "Severe"

/-- One entry of the static disease reference table (model.py `DISEASE_DB`). -/
structure DiseaseInfo where
  name : String
  pesticide : String
  dosage : String
  description : String
deriving DecidableEq

/-- The `healthy` entry of `DISEASE_DB` (model.py lines 102-107). -/
def healthy_info : DiseaseInfo :=
  { name := "Healthy Plant"
    pesticide := "None required"
    dosage := "N/A"
    description := "No disease detected" }

/-- `DiseaseSegmentationModel.DISEASE_DB` (model.py lines 77-108),
as an association list in the source's insertion order. -/
def DISEASE_DB : List (String × DiseaseInfo) :=
  [ ("wheat_brown_rust",
     { name := "Wheat Brown Rust"
       pesticide := "Propiconazole 25% EC"
       dosage := "1ml per liter of water"
       description := "Fungal disease causing brown pustules on leaves" }),
    ("tomato_early_blight",
     { name := "Tomato Early Blight"
       pesticide := "Mancozeb 75% WP"
       dosage := "2g per liter of water"
       description := "Alternaria solani causing concentric rings on leaves" }),
    ("rice_blast",
     { name := "Rice Blast"
       pesticide := "Tricyclazole 75% WP"
       dosage := "1g per liter of water"
       description := "Pyricularia oryzae causing diamond-shaped lesions" }),
    ("potato_late_blight",
     { name := "Potato Late Blight"
       pesticide := "Metalaxyl 8% + Mancozeb 64% WP"
       dosage := "2.5g per liter of water"
       description := "Phytophthora infestans causing dark lesions" }),
    ("healthy", healthy_info) ]

/-- The recommendation dictionary built by
`DiseaseSegmentationModel.get_recommendation` (model.py lines 235-244). -/
structure Recommendation where
  disease_name : String
  description : String
  infection_level : ℚ
  severity : String
  pesticide : String
  dosage : String
  spray_recommended : Bool
  spray_duration : ℕ
deriving DecidableEq

/-- `DiseaseSegmentationModel.get_recommendation` (model.py lines 222-246):
`DISEASE_DB.get(disease_key, DISEASE_DB['healthy'])` becomes a lookup with
the healthy entry as default. -/
def get_recommendation (disease_key : String) (infection_level : ℚ) : Recommendation :=
  let disease_info := (DISEASE_DB.lookup disease_key).getD healthy_info
  { disease_name := disease_info.name
    description := disease_info.description
    infection_level := infection_level
    severity := get_severity infection_level
    pesticide := disease_info.pesticide
    dosage := disease_info.dosage
    spray_recommended := decide (15 < infection_level)
    spray_duration := calculate_spray_duration infection_level }

/-- C1: for every moisture value m the interlock permits actuation iff
40 <= m <= 70, both bounds inclusive; in particular it rejects 39.9,
accepts 40 and 70, and rejects 70.1. -/
theorem moisture_safe_iff :
    (∀ m : ℚ, moisture_safe m = true ↔ (40 ≤ m ∧ m ≤ 70)) ∧
    moisture_safe (399 / 10) = false ∧
    moisture_safe 40 = true ∧
    moisture_safe 70 = true ∧
    moisture_safe (701 / 10) = false := by
  refine ⟨fun m => by simp [moisture_safe], ?_, ?_, ?_, ?_⟩ <;>
    simp [moisture_safe] <;> norm_num

/-- The mutable `spray_status` dictionary of app.py (lines 37-41).
The `spray_duration` key is absent until the first accepted START,
hence an `Option`; timestamps are abstract naturals. -/
structure SprayStatus where
  is_spraying : Bool
  last_command : Option String
  last_spray_time : Option Nat
  spray_duration : Option ℚ
deriving DecidableEq

/-- Initial value of `spray_status` at process start (app.py lines 37-41). -/
def spray_status : SprayStatus :=
  { is_spraying := false
    last_command := none
    last_spray_time := none
    spray_duration := none }

/-- Outcome returned by the `/control/spray` handler: the 400 invalid-command
error, the 403 rejection (carrying the moisture that was checked), or the
two success responses. -/
inductive SprayResult where
  | invalid : SprayResult
  | rejected (soil_moisture : ℚ) : SprayResult
  | started (duration : ℚ) : SprayResult
  | stopped : SprayResult
deriving DecidableEq

/-- `control_spray` (app.py lines 208-279) as a state transformer on
`spray_status`.  `command` is the token after `.upper()`; `duration` and
`soil_moisture` are the request values after defaulting (lines 228-229);
`now` stands for `datetime.now()`.  Order of checks follows the source:
command validity first, then the moisture interlock for START only. -/
def control_spray (status : SprayStatus) (command : String)
    (duration soil_moisture : ℚ) (now : Nat) : SprayStatus × SprayResult :=
  if command = "START" ∨ command = "STOP" then
    if command = "START" then
      if moisture_safe soil_moisture then
        ({ is_spraying := true
           last_command := some "START"
           last_spray_time := some now
           spray_duration := some duration },
         SprayResult.started duration)
      else
        ({ status with last_command := some "REJECTED" },
         SprayResult.rejected soil_moisture)
    else
      ({ status with is_spraying := false, last_command := some "STOP" },
       SprayResult.stopped)
  else
    (status, SprayResult.invalid)

/-- The `latest_sensor_data` record of app.py (lines 30-35). -/
structure SensorData where
  temperature : ℚ
  humidity : ℚ
  soil_moisture : ℚ
  timestamp : Nat
deriving DecidableEq

/-- Initial value of `latest_sensor_data` (app.py lines 30-35). -/
def latest_sensor_data : SensorData :=
  { temperature := 25
    humidity := 60
    soil_moisture := 55
    timestamp := 0 }

/-- The JSON body accepted by `/sensors/update`: any subset of the three
fields may be present (`data.get(k, previous)` in the source). -/
structure SensorUpdate where
  temperature : Option ℚ
  humidity : Option ℚ
  soil_moisture : Option ℚ
deriving DecidableEq

/-- `update_sensors` (app.py lines 176-205): each supplied field replaces
the stored one, absent fields keep the previous value, and the timestamp
is set to the update time. -/
def update_sensors (prev : SensorData) (data : SensorUpdate) (now : Nat) :
    SensorData :=
  { temperature := data.temperature.getD prev.temperature
    humidity := data.humidity.getD prev.humidity
    soil_moisture := data.soil_moisture.getD prev.soil_moisture
    timestamp := now }

/-- `get_sensors` (app.py lines 167-173): returns the stored reading. -/
def get_sensors (stored : SensorData) : SensorData :=
  stored

/-- The deterministic fields of the `/analyze` response (app.py lines
119-159), as a function of the prediction outputs `disease_key`,
`infection_level` and the resolved `soil_moisture`.  The image handling,
file paths, confidence rounding and alert text are outside the decision
core and are omitted. -/
structure AnalyzeResponse where
  disease_detected : Bool
  disease_name : String
  disease_description : String
  infection_level : ℚ
  severity : String
  pesticide : String
  dosage : String
  spray_recommended : Bool
  spray_duration : ℕ
  spray_allowed : Bool
  soil_moisture : ℚ
  moisture_safe : Bool
deriving DecidableEq

/-- Decision fields of `analyze_image` (app.py lines 119-159):
`spray_recommended` is the recommendation flag conjoined with the
interlock verdict (line 152); `spray_allowed` is the verdict alone
(line 154). -/
def analyze_image (disease_key : String) (infection_level soil_moisture : ℚ) :
    AnalyzeResponse :=
  let recommendation := get_recommendation disease_key infection_level
  let safe := moisture_safe soil_moisture
  { disease_detected := decide (disease_key ≠ "healthy")
    disease_name := recommendation.disease_name
    disease_description := recommendation.description
    infection_level := infection_level
    severity := recommendation.severity
    pesticide := recommendation.pesticide
    dosage := recommendation.dosage
    spray_recommended := recommendation.spray_recommended && safe
    spray_duration := recommendation.spray_duration
    spray_allowed := safe
    soil_moisture := soil_moisture
    moisture_safe := safe }

/-- C2: a START command whose resolved moisture is outside [40, 70] leaves
the actuator state exactly as it was — only `last_command` changes, to
REJECTED — and the handler reports a rejection. -/
theorem start_unsafe_frame (status : SprayStatus) (duration soil_moisture : ℚ)
    (now : Nat) (h : ¬ (40 ≤ soil_moisture ∧ soil_moisture ≤ 70)) :
    control_spray status "START" duration soil_moisture now =
      ({ status with last_command := some "REJECTED" },
       SprayResult.rejected soil_moisture) := by
  simp [control_spray, moisture_safe, h]

/-- Witness for C2: a START at moisture 80 against a status that was
already spraying keeps it spraying and only rewrites `last_command`. -/
theorem start_unsafe_frame_witness :
    control_spray
      { is_spraying := true, last_command := some "START",
        last_spray_time := some 7, spray_duration := some 5 }
      "START" 5 80 9 =
      ({ is_spraying := true, last_command := some "REJECTED",
         last_spray_time := some 7, spray_duration := some 5 },
       SprayResult.rejected 80) :=
  start_unsafe_frame _ 5 80 9 (by norm_num)

/-- C3: a STOP command always succeeds, always ends with the actuator idle
and `last_command` = STOP, from any prior status and any moisture value,
safe or not. -/
theorem stop_always_idle (status : SprayStatus) (duration soil_moisture : ℚ)
    (now : Nat) :
    (control_spray status "STOP" duration soil_moisture now).1.is_spraying = false ∧
    (control_spray status "STOP" duration soil_moisture now).1.last_command = some "STOP" ∧
    (control_spray status "STOP" duration soil_moisture now).2 = SprayResult.stopped := by
  simp [control_spray]

/-- C4: the duration bands, with boundary values 25, 50 and 75 in the upper
band, and the result always one of 0, 3, 5, 8, 10. -/
theorem spray_duration_bands (infection_level : ℚ) :
    (infection_level ≤ 0 → calculate_spray_duration infection_level = 0) ∧
    (0 < infection_level ∧ infection_level < 25 →
      calculate_spray_duration infection_level = 3) ∧
    (25 ≤ infection_level ∧ infection_level < 50 →
      calculate_spray_duration infection_level = 5) ∧
    (50 ≤ infection_level ∧ infection_level < 75 →
      calculate_spray_duration infection_level = 8) ∧
    (75 ≤ infection_level → calculate_spray_duration infection_level = 10) ∧
    calculate_spray_duration infection_level ∈ ([0, 3, 5, 8, 10] : List ℕ) := by
  unfold calculate_spray_duration
  split_ifs with h0 h25 h50 h75 <;>
    refine ⟨fun h => ?_, fun h => ?_, fun h => ?_, fun h => ?_, fun h => ?_,
      by simp⟩ <;>
    first
      | rfl
      | (exfalso; obtain ⟨h1, h2⟩ := h; linarith)
      | (exfalso; linarith)

/-- Witness for C4: the boundary value 25 falls in the 5-second band. -/
theorem spray_duration_bands_witness :
    calculate_spray_duration 25 = 5 :=
  (spray_duration_bands 25).2.2.1 (by norm_num)

/-- C6: the recommendation's spray_recommended flag holds iff
infectionLevel > 15, for every disease key, independently of the duration
banding: at infectionLevel 20 the duration is 3 yet the flag is true. -/
theorem spray_recommended_iff (disease_key : String) (infection_level : ℚ) :
    ((get_recommendation disease_key infection_level).spray_recommended = true ↔
      15 < infection_level) ∧
    (get_recommendation disease_key 20).spray_duration = 3 ∧
    (get_recommendation disease_key 20).spray_recommended = true := by
  refine ⟨by simp [get_recommendation], ?_, by simp [get_recommendation]; norm_num⟩
  simp [get_recommendation, calculate_spray_duration]
  norm_num

/-- C7: the severity label follows the exact bands Low / Moderate / High /
Severe at thresholds 10, 30 and 50. -/
theorem severity_bands (infection_level : ℚ) :
    (infection_level < 10 → get_severity infection_level = "Low") ∧
    (10 ≤ infection_level ∧ infection_level < 30 →
      get_severity infection_level = "Moderate") ∧
    (30 ≤ infection_level ∧ infection_level < 50 →
      get_severity infection_level = "High") ∧
    (50 ≤ infection_level → get_severity infection_level = "Severe") := by
  unfold get_severity
  split_ifs with h10 h30 h50 <;>
    refine ⟨fun h => ?_, fun h => ?_, fun h => ?_, fun h => ?_⟩ <;>
    first
      | rfl
      | (exfalso; obtain ⟨h1, h2⟩ := h; linarith)
      | (exfalso; linarith)

/-- Witness for C7: the boundary value 30 is labelled High. -/
theorem severity_bands_witness :
    get_severity 30 = "High" :=
  (severity_bands 30).2.2.1 (by norm_num)

/-- C8: after a partial sensor update, supplied fields take the supplied
values, unspecified fields keep their previous values, and the timestamp
becomes the update time. -/
theorem update_sensors_frame (prev : SensorData) (data : SensorUpdate)
    (now : Nat) :
    (∀ v, data.temperature = some v →
      (update_sensors prev data now).temperature = v) ∧
    (data.temperature = none →
      (update_sensors prev data now).temperature = prev.temperature) ∧
    (∀ v, data.humidity = some v →
      (update_sensors prev data now).humidity = v) ∧
    (data.humidity = none →
      (update_sensors prev data now).humidity = prev.humidity) ∧
    (∀ v, data.soil_moisture = some v →
      (update_sensors prev data now).soil_moisture = v) ∧
    (data.soil_moisture = none →
      (update_sensors prev data now).soil_moisture = prev.soil_moisture) ∧
    (update_sensors prev data now).timestamp = now := by
  refine ⟨?_, ?_, ?_, ?_, ?_, ?_, rfl⟩ <;>
    first
      | (intro v hv; simp [update_sensors, hv])
      | (intro hv; simp [update_sensors, hv])

/-- Witness for C8: recording only soilMoisture 55 over the initial reading
stores 55 and keeps the previous temperature; reading back via
`get_sensors` yields soilMoisture 55. -/
theorem update_sensors_frame_witness :
    (update_sensors latest_sensor_data
        { temperature := none, humidity := none, soil_moisture := some 55 }
        3).soil_moisture = 55 ∧
    (update_sensors latest_sensor_data
        { temperature := none, humidity := none, soil_moisture := some 55 }
        3).temperature = latest_sensor_data.temperature ∧
    (get_sensors (update_sensors latest_sensor_data
        { temperature := none, humidity := none, soil_moisture := some 55 }
        3)).soil_moisture = 55 := by
  have h := update_sensors_frame latest_sensor_data
    { temperature := none, humidity := none, soil_moisture := some 55 } 3
  exact ⟨h.2.2.2.2.1 55 rfl, h.2.1 rfl, h.2.2.2.2.1 55 rfl⟩

/-- C9: a disease key absent from the reference table does not raise; the
recommendation carries the fields of the healthy fallback entry. -/
theorem unknown_disease_fallback (disease_key : String) (infection_level : ℚ)
    (h : DISEASE_DB.lookup disease_key = none) :
    (get_recommendation disease_key infection_level).disease_name =
      healthy_info.name ∧
    (get_recommendation disease_key infection_level).pesticide =
      healthy_info.pesticide ∧
    (get_recommendation disease_key infection_level).dosage =
      healthy_info.dosage ∧
    (get_recommendation disease_key infection_level).description =
      healthy_info.description := by
  simp [get_recommendation, h]

/-- Witness for C9: the key unknown_disease is not in the table and its
recommendation shows the healthy entry's name. -/
theorem unknown_disease_fallback_witness :
    DISEASE_DB.lookup "unknown_disease" = none ∧
    (get_recommendation "unknown_disease" 20).disease_name = "Healthy Plant" :=
  ⟨by decide, (unknown_disease_fallback "unknown_disease" 20 (by decide)).1⟩

/-- C10: in the analyze response, spray_recommended holds iff the infection
level exceeds 15 AND the resolved moisture lies in [40, 70], while
spray_allowed equals the interlock verdict alone. -/
theorem analyze_spray_recommended_conjoined (disease_key : String)
    (infection_level soil_moisture : ℚ) :
    ((analyze_image disease_key infection_level soil_moisture).spray_recommended
        = true ↔
      (15 < infection_level ∧ 40 ≤ soil_moisture ∧ soil_moisture ≤ 70)) ∧
    ((analyze_image disease_key infection_level soil_moisture).spray_allowed
        = true ↔
      (40 ≤ soil_moisture ∧ soil_moisture ≤ 70)) := by
  constructor <;> simp [analyze_image, get_recommendation, moisture_safe, and_assoc]
